import Mathlib

/-!
Verification of the phys131-lab-mvp document-export logic.

The repository has three Python source files:

* `pdf_generator.py` — the final revision of the composer: `safe_multicell`,
  `_add_font`, `_render_header`, `_render_data_table`, `_render_plot`,
  `_render_analysis`, `create_lab_pdf`.
* `lab_app.py` — the earlier monolithic revision of `create_lab_pdf` plus the
  Streamlit UI (`main`).
* `tex_tools.py` — `read_tex_file` and the LaTeX preview.

The embedding below models the FPDF canvas as a state carrying the page
geometry, the set of registered fonts, the current font family and size, and
the ordered list of content items emitted so far.  Serializing the canvas
(`pdf.output`) is modelled as returning that ordered item list: two exports
produce byte-identical documents exactly when their item lists are equal.
The page geometry is the one both revisions configure: A4 portrait in mm
(page width 210) with `set_margins(15, 15, 15)`.

Library semantics modelled from the fpdf/fpdf2 library (a dependency, not
part of the repository): `set_font(family)` looks the lowercased family up
among fonts registered by `add_font` and the built-in core families
(after alias substitution, e.g. Arial ↦ helvetica) and raises an
"Undefined font" error when the family is unknown; `add_font` registers the
lowercased family.  The nondeterministic inputs `datetime.now()` and
`os.path.exists(font_path)` are passed as explicit parameters (`now`,
`fontExists`).
-/

/-- A Python value held in a data-table cell.  The app's tables hold
strings and numbers; `str` below is Python's `str()` on such values
(identity on strings, decimal rendering with a leading minus for
negative integers). -/
inductive PyVal where
  | pyStr (s : String)
  | pyInt (n : Int)
deriving DecidableEq

/-- Python `str(value)`, as applied by both revisions when filling a cell. -/
def PyVal.str : PyVal → String
  | .pyStr s => s
  | .pyInt n => toString n

/-- Python's `x or y` idiom on strings: `y` when `x` is falsy (empty),
otherwise `x`.  Both revisions substitute optional fields through it. -/
def pyOr (s d : String) : String := if s = "" then d else s

/-- A pandas DataFrame as the app uses it: named columns in insertion
order, and rows top-to-bottom, each row holding one value per column
(positionally aligned with `cols`, which is what `row[col]` yields when
iterating `df.columns`). -/
structure DataFrame where
  cols : List String
  rows : List (List PyVal)
  hrows : ∀ r ∈ rows, r.length = cols.length

/-- `df.empty` in pandas: true when either axis has length zero. -/
def DataFrame.empty (df : DataFrame) : Bool := df.rows.isEmpty || df.cols.isEmpty

/-- One content item appended to the canvas.  `cell` and `multicell`
record the width, line height, text, border flag (cells) and the font
size current at emission time; `lineBreak` records `pdf.ln(h)`;
`tempFileWrite` records the temporary PNG file written for the plot;
`image` records `pdf.image(..., w=...)`. -/
inductive Item where
  | cell (w : ℚ) (h : ℚ) (text : String) (border : Bool) (size : ℚ)
  | multicell (w : ℚ) (h : ℚ) (text : String) (size : ℚ)
  | lineBreak (h : Option ℚ)
  | tempFileWrite (content : List Nat)
  | image (w : ℚ)
deriving DecidableEq

/-- The text carried by a cell or wrapped paragraph, if any. -/
def Item.text : Item → Option String
  | .cell _ _ t _ _ => some t
  | .multicell _ _ t _ => some t
  | _ => none

/-- Whether the item is a bordered table cell (`pdf.cell(..., border=1)`). -/
def Item.isBordered : Item → Bool
  | .cell _ _ _ b _ => b
  | _ => false

/-- Errors the export can raise: `FileNotFoundError` (earlier revision's
explicit raise) and fpdf's "Undefined font" error from `set_font`. -/
inductive PdfError where
  | fileNotFound (msg : String)
  | undefinedFont (family : String)
deriving DecidableEq

/-- The FPDF canvas state: page width and margins (mm), the families
registered by `add_font` (lowercased), the current font family and size,
and the items emitted so far, in order. -/
structure PdfState where
  w : ℚ
  l_margin : ℚ
  r_margin : ℚ
  fonts : List String
  fontFamily : String
  fontSize : ℚ
  items : List Item
deriving DecidableEq

/-- ASCII lowercasing of one character, as Python's `str.lower` acts on
the ASCII font-family names this app uses. -/
def charLower (c : Char) : Char :=
  if 'A' ≤ c ∧ c ≤ 'Z' then Char.ofNat (c.toNat + 32) else c

/-- `family.lower()` as fpdf applies it to font-family names. -/
def pyLower (s : String) : String := ⟨s.data.map charLower⟩

/-- fpdf's font alias table (`set_font` substitutes these). -/
def fontAliases (f : String) : String :=
  if f = "arial" then "helvetica"
  else if f = "couriernew" then "courier"
  else if f = "timesnewroman" then "times"
  else f

/-- fpdf's built-in core font families. -/
def coreFonts : List String :=
  ["courier", "helvetica", "times", "symbol", "zapfdingbats"]

/-- `pdf.add_font(family, ...)`: registers the lowercased family. -/
def PdfState.add_font (p : PdfState) (family : String) : PdfState :=
  { p with fonts := pyLower family :: p.fonts }

/-- `pdf.set_font(family, "", size)`: selects a registered or core family
(after alias substitution) or raises fpdf's "Undefined font" error. -/
def PdfState.set_font (p : PdfState) (family : String) (size : ℚ) :
    Except PdfError PdfState :=
  let fam := fontAliases (pyLower family)
  if p.fonts.contains fam || coreFonts.contains fam then
    .ok { p with fontFamily := fam, fontSize := size }
  else
    .error (.undefinedFont family)

/-- `pdf.cell(w, h, text, border=...)`. -/
def PdfState.cell (p : PdfState) (w h : ℚ) (text : String) (border : Bool) :
    PdfState :=
  { p with items := p.items ++ [Item.cell w h text border p.fontSize] }

/-- `pdf.multi_cell(w, h, text)`. -/
def PdfState.multi_cell (p : PdfState) (w h : ℚ) (text : String) : PdfState :=
  { p with items := p.items ++ [Item.multicell w h text p.fontSize] }

/-- `pdf.ln(h)` / `pdf.ln()`. -/
def PdfState.ln (p : PdfState) (h : Option ℚ) : PdfState :=
  { p with items := p.items ++ [Item.lineBreak h] }

/-- Writing the plot buffer to a temporary PNG file
(`tempfile.NamedTemporaryFile` + `tmp.write`). -/
def PdfState.tempWrite (p : PdfState) (content : List Nat) : PdfState :=
  { p with items := p.items ++ [Item.tempFileWrite content] }

/-- `pdf.image(img_path, w=...)`. -/
def PdfState.imageAt (p : PdfState) (w : ℚ) : PdfState :=
  { p with items := p.items ++ [Item.image w] }

/-- The canvas both revisions construct: `FPDF("P", "mm", "A4")` with
`set_margins(15, 15, 15)` (A4 portrait page width 210 mm), no fonts
registered yet, nothing emitted. -/
def initPdf : PdfState :=
  { w := 210, l_margin := 15, r_margin := 15, fonts := [],
    fontFamily := "", fontSize := 0, items := [] }

/-- The Report Input record (§3 of the spec): the fields `create_lab_pdf`
consumes.  The plot buffer is the PNG bytes, when one was produced. -/
structure ReportInput where
  student_name : String
  «section» : String
  lab_title : String
  objective : String
  data_df : DataFrame
  analysis : String
  conclusion : String
  fig_buf : Option (List Nat)

namespace PdfGen

/-- `pdf_generator.safe_multicell`: wraps `text` at the usable content
width (page width minus left and right margins).  The source declares
`h: float = 6` and every call site uses the default, passed explicitly
here. -/
def safe_multicell (pdf : PdfState) (text : String) (h : ℚ) : PdfState :=
  let line_width := pdf.w - pdf.l_margin - pdf.r_margin
  pdf.multi_cell line_width h text

/-- `pdf_generator._add_font`: when the font file exists, register DejaVu
and select it; otherwise select the built-in Arial and return.
`fontExists` models `os.path.exists(font_path)`. -/
def _add_font (pdf : PdfState) (fontExists : Bool) : Except PdfError PdfState :=
  if fontExists then
    (pdf.add_font "DejaVu").set_font "DejaVu" 12
  else
    pdf.set_font "Arial" 12

/-- `pdf_generator._render_header`.  `now` models
`datetime.now().strftime("%Y-%m-%d %H:%M")`. -/
def _render_header (pdf : PdfState) (lab_title student_name sec now : String) :
    Except PdfError PdfState := do
  let pdf ← pdf.set_font "DejaVu" 16
  let pdf := safe_multicell pdf lab_title 6
  let pdf := pdf.ln (some 3)
  let pdf ← pdf.set_font "DejaVu" 11
  let pdf := safe_multicell pdf ("Student Name: " ++ pyOr student_name "N/A") 6
  let pdf := safe_multicell pdf ("Section: " ++ pyOr sec "N/A") 6
  let pdf := safe_multicell pdf ("Generated: " ++ now) 6
  return pdf.ln (some 3)

/-- `pdf_generator._render_data_table`. -/
def _render_data_table (pdf : PdfState) (data_df : DataFrame) :
    Except PdfError PdfState := do
  let pdf ← pdf.set_font "DejaVu" 12
  let pdf := safe_multicell pdf "Data Table" 6
  let pdf := pdf.ln (some 1)
  let pdf ← pdf.set_font "DejaVu" 10
  let pdf :=
    if !data_df.empty then
      let col_count := data_df.cols.length
      let col_width := (pdf.w - pdf.l_margin - pdf.r_margin) / (col_count : ℚ)
      let pdf := data_df.cols.foldl (fun p col => p.cell col_width 8 col true) pdf
      let pdf := pdf.ln none
      data_df.rows.foldl
        (fun p row => (row.foldl (fun q v => q.cell col_width 8 v.str true) p).ln none)
        pdf
    else
      safe_multicell pdf "No data entered." 6
  return pdf.ln (some 5)

/-- `pdf_generator._render_plot`. -/
def _render_plot (pdf : PdfState) (fig_buf : Option (List Nat)) :
    Except PdfError PdfState := do
  match fig_buf with
  | none => return pdf
  | some buf =>
    let pdf ← pdf.set_font "DejaVu" 12
    let pdf := safe_multicell pdf "Plot" 6
    let pdf := pdf.ln (some 1)
    let pdf := pdf.tempWrite buf
    let pdf := pdf.imageAt 170
    return pdf.ln (some 5)

/-- `pdf_generator._render_analysis`. -/
def _render_analysis (pdf : PdfState) (analysis conclusion : String) :
    Except PdfError PdfState := do
  let pdf ← pdf.set_font "DejaVu" 12
  let pdf := safe_multicell pdf "Analysis" 6
  let pdf ← pdf.set_font "DejaVu" 11
  let pdf := safe_multicell pdf (pyOr analysis "N/A") 6
  let pdf := pdf.ln (some 5)
  let pdf ← pdf.set_font "DejaVu" 12
  let pdf := safe_multicell pdf "Conclusion" 6
  let pdf ← pdf.set_font "DejaVu" 11
  return safe_multicell pdf (pyOr conclusion "N/A") 6

/-- `pdf_generator.create_lab_pdf`, the final revision's composer.  The
returned item list models the serialized document (`pdf.output(dest="S")`
bytes). -/
def create_lab_pdf (inp : ReportInput) (now : String) (fontExists : Bool) :
    Except PdfError (List Item) := do
  let pdf := initPdf
  let pdf ← _add_font pdf fontExists
  let pdf ← _render_header pdf inp.lab_title inp.student_name inp.«section» now
  let pdf := safe_multicell pdf ("Objective:\n" ++ inp.objective) 6
  let pdf := pdf.ln (some 5)
  let pdf ← _render_data_table pdf inp.data_df
  let pdf ← _render_plot pdf inp.fig_buf
  let pdf ← _render_analysis pdf inp.analysis inp.conclusion
  return pdf.items

end PdfGen

/-- `lab_app.create_lab_pdf`'s column-width computation
`max(30, 170 // len(data_df.columns))` (Python integer division). -/
def labAppColWidth (n : ℕ) : ℕ := max 30 (170 / n)

/-- CPython `str.replace(old, new)` specialized to the one-character
pattern and replacement the app uses: scanning left to right, each
occurrence of `old` is replaced by `new`. -/
def pyReplaceCharList (old new : Char) : List Char → List Char
  | [] => []
  | c :: cs => (if c = old then new else c) :: pyReplaceCharList old new cs

/-- `s.replace(old, new)` on strings, single-character pattern. -/
def pyReplaceChar (s : String) (old new : Char) : String :=
  ⟨pyReplaceCharList old new s.data⟩

namespace LabApp

/-- `lab_app.create_lab_pdf`, the earlier monolithic revision.  It raises
`FileNotFoundError` when the font file is absent, before emitting
anything; `cell(0, ...)`/`multi_cell(0, ...)` record the literal width
argument 0 (fpdf's "full width" convention). -/
def create_lab_pdf (inp : ReportInput) (now : String) (fontExists : Bool) :
    Except PdfError (List Item) := do
  let pdf := initPdf
  if !fontExists then
    throw (PdfError.fileNotFound "DejaVuSans.ttf not found in the repo!")
  let pdf := pdf.add_font "DejaVu"
  let pdf ← pdf.set_font "DejaVu" 16
  let pdf := (pdf.cell 0 10 inp.lab_title false).ln none
  let pdf := pdf.ln (some 5)
  let pdf ← pdf.set_font "DejaVu" 11
  let pdf := pdf.multi_cell 0 6 ("Student Name: " ++ pyOr inp.student_name "N/A")
  let pdf := pdf.multi_cell 0 6 ("Section: " ++ pyOr inp.«section» "N/A")
  let pdf := pdf.multi_cell 0 6 ("Generated: " ++ now)
  let pdf := pdf.ln (some 4)
  let pdf := pdf.multi_cell 0 6 ("Objective:\n" ++ inp.objective)
  let pdf := pdf.ln (some 5)
  let pdf ← pdf.set_font "DejaVu" 13
  let pdf := (pdf.cell 0 8 "Data Table" false).ln none
  let pdf ← pdf.set_font "DejaVu" 10
  let pdf :=
    if !inp.data_df.empty then
      let col_width : ℚ := (labAppColWidth inp.data_df.cols.length : ℚ)
      let pdf := inp.data_df.cols.foldl (fun p col => p.cell col_width 8 col true) pdf
      let pdf := pdf.ln none
      inp.data_df.rows.foldl
        (fun p row => (row.foldl (fun q v => q.cell col_width 8 v.str true) p).ln none)
        pdf
    else
      pdf.multi_cell 0 6 "No data entered."
  let pdf := pdf.ln (some 5)
  let pdf ←
    match inp.fig_buf with
    | none => pure pdf
    | some buf => do
      let pdf ← pdf.set_font "DejaVu" 13
      let pdf := (pdf.cell 0 8 "Plot" false).ln none
      let pdf := pdf.ln (some 2)
      let pdf := pdf.tempWrite buf
      let pdf := pdf.imageAt 170
      pure (pdf.ln (some 5))
  let pdf ← pdf.set_font "DejaVu" 13
  let pdf := (pdf.cell 0 8 "Analysis" false).ln none
  let pdf ← pdf.set_font "DejaVu" 11
  let pdf := pdf.multi_cell 0 6 (pyOr inp.analysis "N/A")
  let pdf := pdf.ln (some 5)
  let pdf ← pdf.set_font "DejaVu" 13
  let pdf := (pdf.cell 0 8 "Conclusion" false).ln none
  let pdf ← pdf.set_font "DejaVu" 11
  let pdf := pdf.multi_cell 0 6 (pyOr inp.conclusion "N/A")
  return pdf.items

/-- `lab_app.main`'s download file name:
`f"lab_report_{lab_title.replace(' ', '_')}.pdf"`. -/
def download_file_name (lab_title : String) : String :=
  "lab_report_" ++ pyReplaceChar lab_title ' ' '_' ++ ".pdf"

/-- The MIME type `lab_app.main` passes to `st.download_button`. -/
def download_mime : String := "application/pdf"

end LabApp

/-- The Unicode replacement character U+FFFD, which `errors="replace"`
substitutes for each maximal invalid subsequence. -/
def replacementChar : Char := Char.ofNat 0xFFFD

/-- One step of CPython's UTF-8 decoder with `errors="replace"`: given the
lead byte `b0` and the remaining bytes, return the decoded character (or
U+FFFD) and how many bytes beyond `b0` were consumed.  Overlong
encodings, surrogates and out-of-range lead bytes are rejected exactly as
CPython rejects them (the longest valid prefix of a sequence is consumed
and replaced; the failing byte is reprocessed). -/
def utf8Step (b0 : Nat) (rest : List Nat) : Char × Nat :=
  if b0 < 0x80 then (Char.ofNat b0, 0)
  else if b0 < 0xC2 then (replacementChar, 0)
  else if b0 < 0xE0 then
    match rest with
    | b1 :: _ =>
      if 0x80 ≤ b1 ∧ b1 < 0xC0 then
        (Char.ofNat ((b0 - 0xC0) * 64 + (b1 - 0x80)), 1)
      else (replacementChar, 0)
    | [] => (replacementChar, 0)
  else if b0 < 0xF0 then
    match rest with
    | b1 :: rest1 =>
      if (if b0 = 0xE0 then 0xA0 ≤ b1 ∧ b1 < 0xC0
          else if b0 = 0xED then 0x80 ≤ b1 ∧ b1 < 0xA0
          else 0x80 ≤ b1 ∧ b1 < 0xC0) then
        match rest1 with
        | b2 :: _ =>
          if 0x80 ≤ b2 ∧ b2 < 0xC0 then
            (Char.ofNat ((b0 - 0xE0) * 4096 + (b1 - 0x80) * 64 + (b2 - 0x80)), 2)
          else (replacementChar, 1)
        | [] => (replacementChar, 1)
      else (replacementChar, 0)
    | [] => (replacementChar, 0)
  else if b0 < 0xF5 then
    match rest with
    | b1 :: rest1 =>
      if (if b0 = 0xF0 then 0x90 ≤ b1 ∧ b1 < 0xC0
          else if b0 = 0xF4 then 0x80 ≤ b1 ∧ b1 < 0x90
          else 0x80 ≤ b1 ∧ b1 < 0xC0) then
        match rest1 with
        | b2 :: rest2 =>
          if 0x80 ≤ b2 ∧ b2 < 0xC0 then
            match rest2 with
            | b3 :: _ =>
              if 0x80 ≤ b3 ∧ b3 < 0xC0 then
                (Char.ofNat ((b0 - 0xF0) * 262144 + (b1 - 0x80) * 4096 +
                  (b2 - 0x80) * 64 + (b3 - 0x80)), 3)
              else (replacementChar, 2)
            | [] => (replacementChar, 2)
          else (replacementChar, 1)
        | [] => (replacementChar, 1)
      else (replacementChar, 0)
    | [] => (replacementChar, 0)
  else (replacementChar, 0)

/-- `bytes.decode("utf-8", errors="replace")`: a total function on byte
sequences — no input raises. -/
def utf8DecodeReplace : List Nat → List Char
  | [] => []
  | b0 :: rest =>
    let s := utf8Step b0 rest
    s.1 :: utf8DecodeReplace (rest.drop s.2)
termination_by l => l.length
decreasing_by
  simp only [List.length_drop, List.length_cons]
  omega

/-- The UTF-8 encoding of one Unicode scalar value (`s.encode("utf-8")`
acts per character; Lean `Char` is exactly a Unicode scalar value, i.e. a
code point encodable in UTF-8). -/
def utf8EncodeChar (c : Char) : List Nat :=
  let n := c.toNat
  if n < 0x80 then [n]
  else if n < 0x800 then [0xC0 + n / 64, 0x80 + n % 64]
  else if n < 0x10000 then
    [0xE0 + n / 4096, 0x80 + (n / 64) % 64, 0x80 + n % 64]
  else
    [0xF0 + n / 262144, 0x80 + (n / 4096) % 64, 0x80 + (n / 64) % 64,
     0x80 + n % 64]

/-- `s.encode("utf-8")` on a whole string. -/
def utf8Encode (s : String) : List Nat := s.data.flatMap utf8EncodeChar

/-- The binary stream handed to `read_tex_file`: its byte content, plus a
flag modelling whether `seek(0)` on it raises (e.g. an unseekable
stream). -/
structure ByteStream where
  content : List Nat
  seekFails : Bool

/-- `file_obj.seek(0)`: either repositions or raises. -/
def ByteStream.seek0 (s : ByteStream) : Except String ByteStream :=
  if s.seekFails then .error "seek failed" else .ok s

/-- `tex_tools.read_tex_file`: reads the bytes, tries to `seek(0)`
swallowing any failure (`try/except: pass`), and decodes the bytes as
UTF-8 with replacement.  Total: both branches of the swallowed seek give
the decoded contents. -/
def read_tex_file (file_obj : ByteStream) : String :=
  let content := file_obj.content
  let decoded :=
    match file_obj.seek0 with
    | .ok _ => String.mk (utf8DecodeReplace content)
    | .error _ => String.mk (utf8DecodeReplace content)
  decoded

/-!  Helper lemmas for unfolding the composer pipeline. -/

theorem exceptOkBind {ε α β : Type} (a : α) (f : α → Except ε β) :
    (Except.ok a : Except ε α) >>= f = f a := rfl

theorem exceptErrorBind {ε α β : Type} (e : ε) (f : α → Except ε β) :
    (Except.error e : Except ε α) >>= f = Except.error e := rfl

theorem exceptPureEqOk {ε α : Type} (a : α) :
    (pure a : Except ε α) = Except.ok a := rfl

theorem set_font_dejavu_registered (p : PdfState) (hf : p.fonts = ["dejavu"])
    (size : ℚ) :
    p.set_font "DejaVu" size =
      .ok { p with fontFamily := "dejavu", fontSize := size } := by
  have halias : fontAliases (pyLower "DejaVu") = "dejavu" := by decide
  have hcond : (["dejavu"].contains "dejavu" || coreFonts.contains "dejavu") = true := by
    decide
  simp [PdfState.set_font, halias, hf, hcond]

theorem set_font_dejavu_unregistered (p : PdfState) (hf : p.fonts = [])
    (size : ℚ) :
    p.set_font "DejaVu" size = .error (.undefinedFont "DejaVu") := by
  have halias : fontAliases (pyLower "DejaVu") = "dejavu" := by decide
  simp [PdfState.set_font, halias, hf]
  decide

theorem set_font_arial (p : PdfState) (size : ℚ) :
    p.set_font "Arial" size =
      .ok { p with fontFamily := "helvetica", fontSize := size } := by
  have halias : fontAliases (pyLower "Arial") = "helvetica" := by decide
  simp [PdfState.set_font, halias]
  intro h
  decide

theorem foldl_header_cells (cw : ℚ) (cols : List String) (p : PdfState) :
    cols.foldl (fun q col => q.cell cw 8 col true) p =
      { p with items := p.items ++
          cols.map (fun col => Item.cell cw 8 col true p.fontSize) } := by
  induction cols generalizing p with
  | nil => simp
  | cons c t ih =>
    simp only [List.foldl_cons, List.map_cons]
    rw [ih]
    simp [PdfState.cell]

theorem foldl_row_cells (cw : ℚ) (row : List PyVal) (p : PdfState) :
    row.foldl (fun q v => q.cell cw 8 v.str true) p =
      { p with items := p.items ++
          row.map (fun v => Item.cell cw 8 v.str true p.fontSize) } := by
  induction row generalizing p with
  | nil => simp
  | cons v t ih =>
    simp only [List.foldl_cons, List.map_cons]
    rw [ih]
    simp [PdfState.cell]

theorem foldl_rows (cw : ℚ) (rows : List (List PyVal)) (p : PdfState) :
    rows.foldl
        (fun q row => (row.foldl (fun r v => r.cell cw 8 v.str true) q).ln none) p =
      { p with items := p.items ++
          rows.flatMap (fun row =>
            row.map (fun v => Item.cell cw 8 v.str true p.fontSize) ++
            [Item.lineBreak none]) } := by
  induction rows generalizing p with
  | nil => simp
  | cons r t ih =>
    simp only [List.foldl_cons, List.flatMap_cons]
    rw [foldl_row_cells, ih]
    simp [PdfState.ln]

theorem add_font_init_true :
    PdfGen._add_font initPdf true =
      .ok { initPdf with
            fonts := ["dejavu"]
            fontFamily := "dejavu"
            fontSize := 12 } := rfl

theorem render_header_chr (p : PdfState) (hf : p.fonts = ["dejavu"])
    (t sn sec now : String) :
    PdfGen._render_header p t sn sec now = .ok
      { p with
        fontFamily := "dejavu"
        fontSize := 11
        items := p.items ++
          [Item.multicell (p.w - p.l_margin - p.r_margin) 6 t 16,
           Item.lineBreak (some 3),
           Item.multicell (p.w - p.l_margin - p.r_margin) 6
             ("Student Name: " ++ pyOr sn "N/A") 11,
           Item.multicell (p.w - p.l_margin - p.r_margin) 6
             ("Section: " ++ pyOr sec "N/A") 11,
           Item.multicell (p.w - p.l_margin - p.r_margin) 6
             ("Generated: " ++ now) 11,
           Item.lineBreak (some 3)] } := by
  simp [PdfGen._render_header, PdfGen.safe_multicell, PdfState.multi_cell,
    PdfState.ln, exceptOkBind, exceptPureEqOk, set_font_dejavu_registered, hf]

theorem render_table_chr (p : PdfState) (hf : p.fonts = ["dejavu"])
    (df : DataFrame) :
    PdfGen._render_data_table p df = .ok
      { p with
        fontFamily := "dejavu"
        fontSize := 10
        items := p.items ++
          [Item.multicell (p.w - p.l_margin - p.r_margin) 6 "Data Table" 12,
           Item.lineBreak (some 1)] ++
          (if !df.empty then
             df.cols.map (fun col =>
               Item.cell ((p.w - p.l_margin - p.r_margin) / (df.cols.length : ℚ))
                 8 col true 10) ++
             [Item.lineBreak none] ++
             df.rows.flatMap (fun row =>
               row.map (fun v =>
                 Item.cell ((p.w - p.l_margin - p.r_margin) / (df.cols.length : ℚ))
                   8 v.str true 10) ++
               [Item.lineBreak none])
           else
             [Item.multicell (p.w - p.l_margin - p.r_margin) 6 "No data entered." 10]) ++
          [Item.lineBreak (some 5)] } := by
  cases hemp : df.empty with
  | true =>
    simp [PdfGen._render_data_table, PdfGen.safe_multicell, PdfState.multi_cell,
      PdfState.ln, exceptOkBind, exceptPureEqOk, set_font_dejavu_registered, hf,
      hemp, List.append_assoc]
  | false =>
    simp only [PdfGen._render_data_table, PdfGen.safe_multicell, hemp,
      Bool.not_false, if_true]
    simp only [foldl_header_cells, foldl_rows]
    simp [set_font_dejavu_registered, hf, exceptOkBind, exceptPureEqOk,
      PdfState.multi_cell, PdfState.ln, List.append_assoc]

theorem render_plot_none (p : PdfState) :
    PdfGen._render_plot p none = .ok p := rfl

theorem render_plot_some (p : PdfState) (hf : p.fonts = ["dejavu"])
    (buf : List Nat) :
    PdfGen._render_plot p (some buf) = .ok
      { p with
        fontFamily := "dejavu"
        fontSize := 12
        items := p.items ++
          [Item.multicell (p.w - p.l_margin - p.r_margin) 6 "Plot" 12,
           Item.lineBreak (some 1),
           Item.tempFileWrite buf,
           Item.image 170,
           Item.lineBreak (some 5)] } := by
  simp [PdfGen._render_plot, PdfGen.safe_multicell, PdfState.multi_cell,
    PdfState.ln, PdfState.tempWrite, PdfState.imageAt, exceptOkBind,
    exceptPureEqOk, set_font_dejavu_registered, hf, List.append_assoc]

theorem render_analysis_chr (p : PdfState) (hf : p.fonts = ["dejavu"])
    (analysis conclusion : String) :
    PdfGen._render_analysis p analysis conclusion = .ok
      { p with
        fontFamily := "dejavu"
        fontSize := 11
        items := p.items ++
          [Item.multicell (p.w - p.l_margin - p.r_margin) 6 "Analysis" 12,
           Item.multicell (p.w - p.l_margin - p.r_margin) 6 (pyOr analysis "N/A") 11,
           Item.lineBreak (some 5),
           Item.multicell (p.w - p.l_margin - p.r_margin) 6 "Conclusion" 12,
           Item.multicell (p.w - p.l_margin - p.r_margin) 6 (pyOr conclusion "N/A") 11] } := by
  simp [PdfGen._render_analysis, PdfGen.safe_multicell, PdfState.multi_cell,
    PdfState.ln, exceptOkBind, exceptPureEqOk, set_font_dejavu_registered, hf,
    List.append_assoc]

/-- The `Generated:` timestamp line of the final revision's header. -/
def generatedLine (now : String) : Item :=
  Item.multicell 180 6 ("Generated: " ++ now) 11

/-- The bordered-cell block the final revision emits for a non-empty data
table: one header cell per column in insertion order, a line break, then
for each data row (top to bottom) one cell per value in column order and
a line break.  Every cell text is the plain `str(value)` and every width
is content width divided by column count. -/
def tableCellBlock (df : DataFrame) : List Item :=
  df.cols.map (fun col =>
    Item.cell (180 / (df.cols.length : ℚ)) 8 col true 10) ++
  [Item.lineBreak none] ++
  df.rows.flatMap (fun row =>
    row.map (fun v =>
      Item.cell (180 / (df.cols.length : ℚ)) 8 v.str true 10) ++
    [Item.lineBreak none])

/-- The data-table section of the final revision's document. -/
def tableSectionItems (df : DataFrame) : List Item :=
  [Item.multicell 180 6 "Data Table" 12, Item.lineBreak (some 1)] ++
  (if !df.empty then tableCellBlock df
   else [Item.multicell 180 6 "No data entered." 10]) ++
  [Item.lineBreak (some 5)]

/-- The plot section of the final revision's document. -/
def plotSectionItems : Option (List Nat) → List Item
  | none => []
  | some buf =>
    [Item.multicell 180 6 "Plot" 12, Item.lineBreak (some 1),
     Item.tempFileWrite buf, Item.image 170, Item.lineBreak (some 5)]

/-- Closed form of the whole document the final revision produces when
the font file is present. -/
def docItems (inp : ReportInput) (now : String) : List Item :=
  [Item.multicell 180 6 inp.lab_title 16,
   Item.lineBreak (some 3),
   Item.multicell 180 6 ("Student Name: " ++ pyOr inp.student_name "N/A") 11,
   Item.multicell 180 6 ("Section: " ++ pyOr inp.«section» "N/A") 11,
   generatedLine now,
   Item.lineBreak (some 3),
   Item.multicell 180 6 ("Objective:\n" ++ inp.objective) 11,
   Item.lineBreak (some 5)] ++
  tableSectionItems inp.data_df ++
  plotSectionItems inp.fig_buf ++
  [Item.multicell 180 6 "Analysis" 12,
   Item.multicell 180 6 (pyOr inp.analysis "N/A") 11,
   Item.lineBreak (some 5),
   Item.multicell 180 6 "Conclusion" 12,
   Item.multicell 180 6 (pyOr inp.conclusion "N/A") 11]

/-- Characterization of `pdf_generator.create_lab_pdf` when the font
file exists: the export succeeds and the document is exactly
`docItems`. -/
theorem create_lab_pdf_ok (inp : ReportInput) (now : String) :
    PdfGen.create_lab_pdf inp now true = Except.ok (docItems inp now) := by
  have h180 : (210 : ℚ) - 15 - 15 = 180 := by norm_num
  cases hfig : inp.fig_buf with
  | none =>
    simp only [PdfGen.create_lab_pdf, hfig, add_font_init_true, exceptOkBind]
    rw [render_header_chr _ rfl]
    simp only [exceptOkBind]
    rw [render_table_chr _ rfl]
    simp only [exceptOkBind, render_plot_none]
    rw [render_analysis_chr _ rfl]
    simp only [exceptOkBind, exceptPureEqOk]
    simp [docItems, tableSectionItems, tableCellBlock, plotSectionItems,
      generatedLine, PdfGen.safe_multicell, PdfState.multi_cell, PdfState.ln,
      initPdf, h180, hfig, List.append_assoc]
  | some buf =>
    simp only [PdfGen.create_lab_pdf, hfig, add_font_init_true, exceptOkBind]
    rw [render_header_chr _ rfl]
    simp only [exceptOkBind]
    rw [render_table_chr _ rfl]
    simp only [exceptOkBind]
    rw [render_plot_some _ rfl]
    simp only [exceptOkBind]
    rw [render_analysis_chr _ rfl]
    simp only [exceptOkBind, exceptPureEqOk]
    simp [docItems, tableSectionItems, tableCellBlock, plotSectionItems,
      generatedLine, PdfGen.safe_multicell, PdfState.multi_cell, PdfState.ln,
      initPdf, h180, hfig, List.append_assoc]

/-- Universally quantified membership over `flatMap`, in iff form. -/
theorem forall_mem_flatMap_iff {α β : Type} {P : β → Prop} (f : α → List β)
    (l : List α) :
    (∀ b ∈ l.flatMap f, P b) ↔ ∀ a ∈ l, ∀ b ∈ f a, P b := by
  constructor
  · intro h a ha b hb
    exact h b (List.mem_flatMap.mpr ⟨a, ha, hb⟩)
  · intro h b hb
    rcases List.mem_flatMap.mp hb with ⟨a, ha, hb'⟩
    exact h a ha b hb'

/-- Whether the item is the "Plot" section header (a wrapped paragraph
with text `"Plot"` emitted at the section-header font size 12; the lab
title is emitted at size 16 and body paragraphs at size 11 or 10, so
this identifies the plot header uniquely). -/
def Item.isPlotHeader : Item → Bool
  | .multicell _ _ t s => s == 12 && t == "Plot"
  | _ => false

/-- Whether the item records the temporary plot file write. -/
def Item.isTempFileWrite : Item → Bool
  | .tempFileWrite _ => true
  | _ => false

/-- Whether the item records an image placement. -/
def Item.isImage : Item → Bool
  | .image _ => true
  | _ => false

/-- C1 (amended): with A4 margins the content width is 180 mm.  The final
revision's per-column width, content width divided by column count, times
the column count never exceeds the content width (it equals it).  The
earlier revision's `max(30, 170 // n)` satisfies the bound exactly for
column counts up to 6: at 7 or more columns the 30 mm clamp makes the
total `30·n ≥ 210` exceed the 180 mm content width. -/
theorem C1_column_width_amended (n : ℕ) (h : 1 ≤ n) :
    ((initPdf.w - initPdf.l_margin - initPdf.r_margin) / (n : ℚ)) * n ≤
        initPdf.w - initPdf.l_margin - initPdf.r_margin ∧
      ((labAppColWidth n * n ≤ 180) ↔ n ≤ 6) := by
  constructor
  · have hn : (n : ℚ) ≠ 0 := by
      exact_mod_cast Nat.one_le_iff_ne_zero.mp h
    rw [div_mul_cancel₀ _ hn]
  · constructor
    · intro hle
      by_contra hgt
      push_neg at hgt
      have h24 : 170 / n ≤ 24 :=
        Nat.le_trans (Nat.div_le_div_left hgt (by norm_num)) (by norm_num)
      have h30 : labAppColWidth n = 30 := by
        unfold labAppColWidth
        omega
      rw [h30] at hle
      omega
    · intro h6
      interval_cases n <;> decide

/-- C1 (counterexample): at 7 columns the earlier revision's width is
`max(30, 170 // 7) = 30` and `30 · 7 = 210` exceeds the 180 mm content
width, refuting the claim for the earlier revision's computation. -/
theorem C1_column_width_counterexample : 180 < labAppColWidth 7 * 7 := by decide

/-- C1 (witness): the amended statement instantiated at 2 columns. -/
theorem C1_column_width_witness :
    ((initPdf.w - initPdf.l_margin - initPdf.r_margin) / ((2 : ℕ) : ℚ)) * (2 : ℕ) ≤
        initPdf.w - initPdf.l_margin - initPdf.r_margin ∧
      ((labAppColWidth 2 * 2 ≤ 180) ↔ 2 ≤ 6) :=
  C1_column_width_amended 2 (by norm_num)

/-- C2: when the font file is absent, the earlier revision raises
`FileNotFoundError` before rendering anything — that half of the claim
holds.  But the final revision does NOT degrade to the built-in default
font and complete: `_add_font` selects Arial and returns, yet
`_render_header` immediately calls `set_font("DejaVu", ...)` for a family
that was never registered, so fpdf raises "Undefined font: DejaVu" and
the export fails. -/
theorem C2_missing_font_behavior (inp : ReportInput) (now : String) :
    LabApp.create_lab_pdf inp now false =
        .error (.fileNotFound "DejaVuSans.ttf not found in the repo!") ∧
      PdfGen.create_lab_pdf inp now false =
        .error (.undefinedFont "DejaVu") := ⟨rfl, rfl⟩

/-- C7: `safe_multicell` always renders at exactly the usable content
width (page width minus left and right margins): the emitted wrapped
paragraph's width is a function of the page geometry only, never of the
text. -/
theorem C7_safe_multicell_full_width (pdf : PdfState) (text : String) (h : ℚ) :
    PdfGen.safe_multicell pdf text h =
      { pdf with items := pdf.items ++
          [Item.multicell (pdf.w - pdf.l_margin - pdf.r_margin) h text
            pdf.fontSize] } := rfl

/-- C8: the download file name is `lab_report_` followed by the lab title
with every space replaced by an underscore, followed by `.pdf`, and the
download MIME type is the fixed `application/pdf`. -/
theorem C8_download_name_and_mime (lab_title : String) :
    (LabApp.download_file_name lab_title).data =
        "lab_report_".data ++
          lab_title.data.map (fun c => if c = ' ' then '_' else c) ++
          ".pdf".data ∧
      LabApp.download_mime = "application/pdf" := by
  refine ⟨?_, rfl⟩
  have hrep : ∀ l : List Char,
      pyReplaceCharList ' ' '_' l = l.map (fun c => if c = ' ' then '_' else c) := by
    intro l
    induction l with
    | nil => rfl
    | cons c t ih => simp [pyReplaceCharList, ih]
  simp [LabApp.download_file_name, pyReplaceChar, String.data_append, hrep]

/-- C3: with the generation timestamp held constant the composer is a
deterministic function of its input: for any two timestamps the two
exports agree item for item except at the single `Generated:` line
(shared `pre`/`post` witness the identical remainder; taking the two
timestamps equal gives byte-identical output). -/
theorem C3_deterministic_up_to_timestamp (inp : ReportInput) (ts1 ts2 : String) :
    ∃ pre post : List Item,
      PdfGen.create_lab_pdf inp ts1 true = .ok (pre ++ generatedLine ts1 :: post) ∧
        PdfGen.create_lab_pdf inp ts2 true = .ok (pre ++ generatedLine ts2 :: post) := by
  refine ⟨[Item.multicell 180 6 inp.lab_title 16, Item.lineBreak (some 3),
      Item.multicell 180 6 ("Student Name: " ++ pyOr inp.student_name "N/A") 11,
      Item.multicell 180 6 ("Section: " ++ pyOr inp.«section» "N/A") 11],
    [Item.lineBreak (some 3),
      Item.multicell 180 6 ("Objective:\n" ++ inp.objective) 11,
      Item.lineBreak (some 5)] ++
      (tableSectionItems inp.data_df ++
        (plotSectionItems inp.fig_buf ++
          [Item.multicell 180 6 "Analysis" 12,
           Item.multicell 180 6 (pyOr inp.analysis "N/A") 11,
           Item.lineBreak (some 5),
           Item.multicell 180 6 "Conclusion" 12,
           Item.multicell 180 6 (pyOr inp.conclusion "N/A") 11])), ?_, ?_⟩ <;>
  · rw [create_lab_pdf_ok]
    simp only [docItems, List.append_assoc, List.cons_append, List.nil_append]

/-- C4 (amended): for an empty data table the document contains the
fallback line, whose exact text is `"No data entered."` — with a trailing
period — and contains no bordered cell at all. -/
theorem C4_empty_table_fallback (inp : ReportInput) (now : String)
    (h : inp.data_df.empty = true) :
    ∃ l : List Item,
      PdfGen.create_lab_pdf inp now true = .ok l ∧
        (∃ it ∈ l, it.text = some "No data entered.") ∧
        ∀ it ∈ l, it.isBordered = false := by
  refine ⟨docItems inp now, create_lab_pdf_ok inp now, ?_, ?_⟩
  · exact ⟨Item.multicell 180 6 "No data entered." 10, by
      simp [docItems, tableSectionItems, h], rfl⟩
  · cases hfig : inp.fig_buf with
    | none =>
      simp [docItems, tableSectionItems, plotSectionItems, generatedLine, h,
        hfig, List.forall_mem_append, List.forall_mem_cons, Item.isBordered]
    | some buf =>
      simp [docItems, tableSectionItems, plotSectionItems, generatedLine, h,
        hfig, List.forall_mem_append, List.forall_mem_cons, Item.isBordered]

/-- A concrete empty data table: two named columns, no rows. -/
def sampleEmptyDf : DataFrame := ⟨["Time (s)", "Position (m)"], [], by simp⟩

/-- A concrete Report Input with the empty data table and no plot. -/
def sampleEmptyInput : ReportInput :=
  ⟨"", "", "Constant Acceleration Motion Lab", "Objective text",
   sampleEmptyDf, "", "", none⟩

/-- C4 (counterexample): on a concrete empty-table input, no line of the
produced document has the text `"No data entered"` exactly as the claim
quotes it — the emitted line is `"No data entered."`. -/
theorem C4_empty_table_counterexample :
    ∃ l : List Item,
      PdfGen.create_lab_pdf sampleEmptyInput "2024-01-01 00:00" true = .ok l ∧
        ∀ it ∈ l, ¬(it.text = some "No data entered") := by
  refine ⟨docItems sampleEmptyInput "2024-01-01 00:00",
    create_lab_pdf_ok sampleEmptyInput "2024-01-01 00:00", ?_⟩
  decide

/-- C4 (witness): the amended statement at the concrete empty-table
input. -/
theorem C4_empty_table_witness :
    ∃ l : List Item,
      PdfGen.create_lab_pdf sampleEmptyInput "2024-01-01 00:00" true = .ok l ∧
        (∃ it ∈ l, it.text = some "No data entered.") ∧
        ∀ it ∈ l, it.isBordered = false :=
  C4_empty_table_fallback sampleEmptyInput "2024-01-01 00:00" rfl

/-- C5: with no plot buffer supplied, the document has no "Plot" section
header (no section-header-sized paragraph with text "Plot"), no
temporary file write, and no image placement. -/
theorem C5_no_plot_section_when_none (inp : ReportInput) (now : String)
    (h : inp.fig_buf = none) :
    ∃ l : List Item,
      PdfGen.create_lab_pdf inp now true = .ok l ∧
        ∀ it ∈ l, it.isPlotHeader = false ∧ it.isTempFileWrite = false ∧
          it.isImage = false := by
  refine ⟨docItems inp now, create_lab_pdf_ok inp now, ?_⟩
  have h16 : ((16 : ℚ) == (12 : ℚ)) = false := by decide
  have h11 : ((11 : ℚ) == (12 : ℚ)) = false := by decide
  have h10 : ((10 : ℚ) == (12 : ℚ)) = false := by decide
  have h12 : ((12 : ℚ) == (12 : ℚ)) = true := by decide
  have hDT : (("Data Table" == "Plot") : Bool) = false := by decide
  have hAn : (("Analysis" == "Plot") : Bool) = false := by decide
  have hCo : (("Conclusion" == "Plot") : Bool) = false := by decide
  cases hemp : inp.data_df.empty with
  | true =>
    simp [docItems, tableSectionItems, plotSectionItems, generatedLine, h, hemp,
      List.forall_mem_append, List.forall_mem_cons, Item.isPlotHeader,
      Item.isTempFileWrite, Item.isImage, h16, h11, h10, h12, hDT, hAn, hCo]
  | false =>
    simp [docItems, tableSectionItems, tableCellBlock, plotSectionItems,
      generatedLine, h, hemp, List.forall_mem_append, List.forall_mem_cons,
      List.forall_mem_map, forall_mem_flatMap_iff, Item.isPlotHeader,
      Item.isTempFileWrite, Item.isImage, h16, h11, h10, h12, hDT, hAn, hCo]
    rintro a (⟨c, hc, rfl⟩ | rfl | ⟨r, hr, ⟨v, hv, rfl⟩ | rfl⟩ | rfl | rfl |
      rfl | rfl | rfl | rfl) <;>
      simp [h11, h12, hAn, hCo]

/-- C6: for a non-empty data table the document is exactly some
cell-free prefix, then the bordered table block — one bordered header
cell per column in insertion order, then per data row one bordered cell
per value in column order, each cell text the plain `str(value)` — then
a cell-free suffix: the table block cells are exactly the bordered cells
of the document, in that order. -/
theorem C6_table_cells_exact (inp : ReportInput) (now : String)
    (h : inp.data_df.empty = false) :
    ∃ pre post : List Item,
      PdfGen.create_lab_pdf inp now true =
          .ok (pre ++ tableCellBlock inp.data_df ++ post) ∧
        (∀ it ∈ pre, it.isBordered = false) ∧
        ∀ it ∈ post, it.isBordered = false := by
  refine ⟨[Item.multicell 180 6 inp.lab_title 16, Item.lineBreak (some 3),
      Item.multicell 180 6 ("Student Name: " ++ pyOr inp.student_name "N/A") 11,
      Item.multicell 180 6 ("Section: " ++ pyOr inp.«section» "N/A") 11,
      generatedLine now, Item.lineBreak (some 3),
      Item.multicell 180 6 ("Objective:\n" ++ inp.objective) 11,
      Item.lineBreak (some 5),
      Item.multicell 180 6 "Data Table" 12, Item.lineBreak (some 1)],
    [Item.lineBreak (some 5)] ++ plotSectionItems inp.fig_buf ++
      [Item.multicell 180 6 "Analysis" 12,
       Item.multicell 180 6 (pyOr inp.analysis "N/A") 11,
       Item.lineBreak (some 5),
       Item.multicell 180 6 "Conclusion" 12,
       Item.multicell 180 6 (pyOr inp.conclusion "N/A") 11], ?_, ?_, ?_⟩
  · rw [create_lab_pdf_ok]
    simp only [docItems, tableSectionItems, h, Bool.not_false, if_true,
      generatedLine, List.append_assoc, List.cons_append, List.nil_append]
  · simp [generatedLine, List.forall_mem_cons, Item.isBordered]
  · cases hfig : inp.fig_buf with
    | none =>
      simp [plotSectionItems, hfig, List.forall_mem_append,
        List.forall_mem_cons, Item.isBordered]
    | some buf =>
      simp [plotSectionItems, hfig, List.forall_mem_append,
        List.forall_mem_cons, Item.isBordered]

/-- C9: the `or "N/A"` substitution is triggered by falsiness, not only
absence — field by field: whichever of student name, section, analysis
or conclusion is the empty string has the literal `N/A` rendered for it
(in its metadata line, or as the body paragraph right after its section
header), regardless of the other fields. -/
theorem C9_empty_field_renders_na (inp : ReportInput) (now : String) :
    (inp.student_name = "" →
      ∃ A B : List Item,
        PdfGen.create_lab_pdf inp now true = .ok
          (A ++ Item.multicell 180 6 "Student Name: N/A" 11 :: B)) ∧
      (inp.«section» = "" →
        ∃ A B : List Item,
          PdfGen.create_lab_pdf inp now true = .ok
            (A ++ Item.multicell 180 6 "Section: N/A" 11 :: B)) ∧
      (inp.analysis = "" →
        ∃ A B : List Item,
          PdfGen.create_lab_pdf inp now true = .ok
            (A ++ Item.multicell 180 6 "Analysis" 12 ::
              Item.multicell 180 6 "N/A" 11 :: B)) ∧
      (inp.conclusion = "" →
        ∃ A B : List Item,
          PdfGen.create_lab_pdf inp now true = .ok
            (A ++ Item.multicell 180 6 "Conclusion" 12 ::
              Item.multicell 180 6 "N/A" 11 :: B)) := by
  have e1 : "Student Name: " ++ "N/A" = "Student Name: N/A" := rfl
  have e2 : "Section: " ++ "N/A" = "Section: N/A" := rfl
  refine ⟨fun h => ?_, fun h => ?_, fun h => ?_, fun h => ?_⟩
  · refine ⟨[Item.multicell 180 6 inp.lab_title 16, Item.lineBreak (some 3)],
      Item.multicell 180 6 ("Section: " ++ pyOr inp.«section» "N/A") 11 ::
        generatedLine now :: Item.lineBreak (some 3) ::
        Item.multicell 180 6 ("Objective:\n" ++ inp.objective) 11 ::
        Item.lineBreak (some 5) ::
        (tableSectionItems inp.data_df ++
          (plotSectionItems inp.fig_buf ++
            [Item.multicell 180 6 "Analysis" 12,
             Item.multicell 180 6 (pyOr inp.analysis "N/A") 11,
             Item.lineBreak (some 5),
             Item.multicell 180 6 "Conclusion" 12,
             Item.multicell 180 6 (pyOr inp.conclusion "N/A") 11])), ?_⟩
    rw [create_lab_pdf_ok]
    simp [docItems, pyOr, h, e1, generatedLine, List.append_assoc]
  · refine ⟨[Item.multicell 180 6 inp.lab_title 16, Item.lineBreak (some 3),
      Item.multicell 180 6 ("Student Name: " ++ pyOr inp.student_name "N/A") 11],
      generatedLine now :: Item.lineBreak (some 3) ::
        Item.multicell 180 6 ("Objective:\n" ++ inp.objective) 11 ::
        Item.lineBreak (some 5) ::
        (tableSectionItems inp.data_df ++
          (plotSectionItems inp.fig_buf ++
            [Item.multicell 180 6 "Analysis" 12,
             Item.multicell 180 6 (pyOr inp.analysis "N/A") 11,
             Item.lineBreak (some 5),
             Item.multicell 180 6 "Conclusion" 12,
             Item.multicell 180 6 (pyOr inp.conclusion "N/A") 11])), ?_⟩
    rw [create_lab_pdf_ok]
    simp [docItems, pyOr, h, e2, generatedLine, List.append_assoc]
  · refine ⟨[Item.multicell 180 6 inp.lab_title 16, Item.lineBreak (some 3),
      Item.multicell 180 6 ("Student Name: " ++ pyOr inp.student_name "N/A") 11,
      Item.multicell 180 6 ("Section: " ++ pyOr inp.«section» "N/A") 11,
      generatedLine now, Item.lineBreak (some 3),
      Item.multicell 180 6 ("Objective:\n" ++ inp.objective) 11,
      Item.lineBreak (some 5)] ++
      (tableSectionItems inp.data_df ++ plotSectionItems inp.fig_buf),
      [Item.lineBreak (some 5),
       Item.multicell 180 6 "Conclusion" 12,
       Item.multicell 180 6 (pyOr inp.conclusion "N/A") 11], ?_⟩
    rw [create_lab_pdf_ok]
    simp [docItems, pyOr, h, generatedLine, List.append_assoc]
  · refine ⟨[Item.multicell 180 6 inp.lab_title 16, Item.lineBreak (some 3),
      Item.multicell 180 6 ("Student Name: " ++ pyOr inp.student_name "N/A") 11,
      Item.multicell 180 6 ("Section: " ++ pyOr inp.«section» "N/A") 11,
      generatedLine now, Item.lineBreak (some 3),
      Item.multicell 180 6 ("Objective:\n" ++ inp.objective) 11,
      Item.lineBreak (some 5)] ++
      (tableSectionItems inp.data_df ++
        (plotSectionItems inp.fig_buf ++
          [Item.multicell 180 6 "Analysis" 12,
           Item.multicell 180 6 (pyOr inp.analysis "N/A") 11,
           Item.lineBreak (some 5)])),
      [], ?_⟩
    rw [create_lab_pdf_ok]
    simp [docItems, pyOr, h, generatedLine, List.append_assoc]

/-- A concrete two-column, two-row data table. -/
def sampleDf : DataFrame :=
  ⟨["Time (s)", "Position (m)"],
   [[PyVal.pyInt 0, PyVal.pyInt 0], [PyVal.pyInt 1, PyVal.pyInt 5]],
   by decide⟩

/-- A concrete Report Input with the sample table, empty optional fields
and no plot. -/
def sampleInput : ReportInput :=
  ⟨"", "", "Constant Acceleration Motion Lab", "Objective text",
   sampleDf, "", "", none⟩

/-- C5 (witness): instantiation at the concrete no-plot input. -/
theorem C5_no_plot_section_witness :
    ∃ l : List Item,
      PdfGen.create_lab_pdf sampleInput "2024-01-01 00:00" true = .ok l ∧
        ∀ it ∈ l, it.isPlotHeader = false ∧ it.isTempFileWrite = false ∧
          it.isImage = false :=
  C5_no_plot_section_when_none sampleInput "2024-01-01 00:00" rfl

/-- C6 (witness): instantiation at the concrete non-empty-table input. -/
theorem C6_table_cells_witness :
    ∃ pre post : List Item,
      PdfGen.create_lab_pdf sampleInput "2024-01-01 00:00" true =
          .ok (pre ++ tableCellBlock sampleInput.data_df ++ post) ∧
        (∀ it ∈ pre, it.isBordered = false) ∧
        ∀ it ∈ post, it.isBordered = false :=
  C6_table_cells_exact sampleInput "2024-01-01 00:00" rfl

/-- C9 (witness): the four per-field implications instantiated at the
concrete input whose optional fields are all the empty string. -/
theorem C9_empty_field_witness :
    (∃ A B : List Item,
        PdfGen.create_lab_pdf sampleInput "2024-01-01 00:00" true = .ok
          (A ++ Item.multicell 180 6 "Student Name: N/A" 11 :: B)) ∧
      (∃ A B : List Item,
        PdfGen.create_lab_pdf sampleInput "2024-01-01 00:00" true = .ok
          (A ++ Item.multicell 180 6 "Section: N/A" 11 :: B)) ∧
      (∃ A B : List Item,
        PdfGen.create_lab_pdf sampleInput "2024-01-01 00:00" true = .ok
          (A ++ Item.multicell 180 6 "Analysis" 12 ::
            Item.multicell 180 6 "N/A" 11 :: B)) ∧
      ∃ A B : List Item,
        PdfGen.create_lab_pdf sampleInput "2024-01-01 00:00" true = .ok
          (A ++ Item.multicell 180 6 "Conclusion" 12 ::
            Item.multicell 180 6 "N/A" 11 :: B) :=
  ⟨(C9_empty_field_renders_na sampleInput "2024-01-01 00:00").1 rfl,
   (C9_empty_field_renders_na sampleInput "2024-01-01 00:00").2.1 rfl,
   (C9_empty_field_renders_na sampleInput "2024-01-01 00:00").2.2.1 rfl,
   (C9_empty_field_renders_na sampleInput "2024-01-01 00:00").2.2.2 rfl⟩
/-- Unfolding equation of the decoder on an empty byte list. -/
theorem utf8DecodeReplace_nil : utf8DecodeReplace [] = [] := by
  rw [utf8DecodeReplace]

/-- Unfolding equation of the decoder on a lead byte. -/
theorem utf8DecodeReplace_cons (b : Nat) (rest : List Nat) :
    utf8DecodeReplace (b :: rest) =
      (utf8Step b rest).1 :: utf8DecodeReplace (rest.drop (utf8Step b rest).2) := by
  rw [utf8DecodeReplace]

/-- Validity of a Lean `Char` as a Unicode scalar value, in `Nat` form. -/
theorem char_toNat_valid (c : Char) :
    c.toNat < 0xd800 ∨ (0xdfff < c.toNat ∧ c.toNat < 0x110000) := c.valid

/-- Decoding the UTF-8 encoding of one character followed by any tail
recovers the character and continues on the tail. -/
theorem utf8_decode_encode_char (c : Char) (tail : List Nat) :
    utf8DecodeReplace (utf8EncodeChar c ++ tail) = c :: utf8DecodeReplace tail := by
  have hval := char_toNat_valid c
  have hofnat : Char.ofNat c.toNat = c := Char.ofNat_toNat c
  by_cases h1 : c.toNat < 0x80
  · have hs : utf8Step c.toNat tail = (Char.ofNat c.toNat, 0) := by
      simp only [utf8Step]
      rw [if_pos h1]
    simp only [utf8EncodeChar, h1, if_true, List.cons_append, List.nil_append]
    rw [utf8DecodeReplace_cons, hs]
    simp [hofnat]
  · by_cases h2 : c.toNat < 0x800
    · have hs : utf8Step (0xC0 + c.toNat / 64) ((0x80 + c.toNat % 64) :: tail) =
          (Char.ofNat c.toNat, 1) := by
        simp only [utf8Step]
        rw [if_neg (by omega : ¬(0xC0 + c.toNat / 64 < 0x80)),
          if_neg (by omega : ¬(0xC0 + c.toNat / 64 < 0xC2)),
          if_pos (by omega : 0xC0 + c.toNat / 64 < 0xE0),
          if_pos (by omega :
            0x80 ≤ 0x80 + c.toNat % 64 ∧ 0x80 + c.toNat % 64 < 0xC0),
          show (0xC0 + c.toNat / 64 - 0xC0) * 64 + (0x80 + c.toNat % 64 - 0x80) =
            c.toNat from by omega]
      simp only [utf8EncodeChar, h1, h2, if_true, if_false,
        List.cons_append, List.nil_append]
      rw [utf8DecodeReplace_cons, hs]
      simp [hofnat]
    · by_cases h3 : c.toNat < 0x10000
      · have hs : utf8Step (0xE0 + c.toNat / 4096)
            ((0x80 + c.toNat / 64 % 64) :: (0x80 + c.toNat % 64) :: tail) =
            (Char.ofNat c.toNat, 2) := by
          simp only [utf8Step]
          rw [if_neg (by omega : ¬(0xE0 + c.toNat / 4096 < 0x80)),
            if_neg (by omega : ¬(0xE0 + c.toNat / 4096 < 0xC2)),
            if_neg (by omega : ¬(0xE0 + c.toNat / 4096 < 0xE0)),
            if_pos (by omega : 0xE0 + c.toNat / 4096 < 0xF0),
            if_pos (by split_ifs <;> omega :
              (if (0xE0 + c.toNat / 4096) = 0xE0 then
                0xA0 ≤ 0x80 + c.toNat / 64 % 64 ∧ 0x80 + c.toNat / 64 % 64 < 0xC0
              else if (0xE0 + c.toNat / 4096) = 0xED then
                0x80 ≤ 0x80 + c.toNat / 64 % 64 ∧ 0x80 + c.toNat / 64 % 64 < 0xA0
              else
                0x80 ≤ 0x80 + c.toNat / 64 % 64 ∧
                  0x80 + c.toNat / 64 % 64 < 0xC0)),
            if_pos (by omega :
              0x80 ≤ 0x80 + c.toNat % 64 ∧ 0x80 + c.toNat % 64 < 0xC0),
            show (0xE0 + c.toNat / 4096 - 0xE0) * 4096 +
                (0x80 + c.toNat / 64 % 64 - 0x80) * 64 +
                (0x80 + c.toNat % 64 - 0x80) = c.toNat from by omega]
        simp only [utf8EncodeChar, h1, h2, h3, if_true, if_false,
          List.cons_append, List.nil_append]
        rw [utf8DecodeReplace_cons, hs]
        simp [hofnat]
      · have hs : utf8Step (0xF0 + c.toNat / 262144)
            ((0x80 + c.toNat / 4096 % 64) :: (0x80 + c.toNat / 64 % 64) ::
              (0x80 + c.toNat % 64) :: tail) = (Char.ofNat c.toNat, 3) := by
          simp only [utf8Step]
          rw [if_neg (by omega : ¬(0xF0 + c.toNat / 262144 < 0x80)),
            if_neg (by omega : ¬(0xF0 + c.toNat / 262144 < 0xC2)),
            if_neg (by omega : ¬(0xF0 + c.toNat / 262144 < 0xE0)),
            if_neg (by omega : ¬(0xF0 + c.toNat / 262144 < 0xF0)),
            if_pos (by omega : 0xF0 + c.toNat / 262144 < 0xF5),
            if_pos (by split_ifs <;> omega :
              (if (0xF0 + c.toNat / 262144) = 0xF0 then
                0x90 ≤ 0x80 + c.toNat / 4096 % 64 ∧
                  0x80 + c.toNat / 4096 % 64 < 0xC0
              else if (0xF0 + c.toNat / 262144) = 0xF4 then
                0x80 ≤ 0x80 + c.toNat / 4096 % 64 ∧
                  0x80 + c.toNat / 4096 % 64 < 0x90
              else
                0x80 ≤ 0x80 + c.toNat / 4096 % 64 ∧
                  0x80 + c.toNat / 4096 % 64 < 0xC0)),
            if_pos (by omega :
              0x80 ≤ 0x80 + c.toNat / 64 % 64 ∧ 0x80 + c.toNat / 64 % 64 < 0xC0),
            if_pos (by omega :
              0x80 ≤ 0x80 + c.toNat % 64 ∧ 0x80 + c.toNat % 64 < 0xC0),
            show (0xF0 + c.toNat / 262144 - 0xF0) * 262144 +
                (0x80 + c.toNat / 4096 % 64 - 0x80) * 4096 +
                (0x80 + c.toNat / 64 % 64 - 0x80) * 64 +
                (0x80 + c.toNat % 64 - 0x80) = c.toNat from by omega]
        simp only [utf8EncodeChar, h1, h2, h3, if_true, if_false,
          List.cons_append, List.nil_append]
        rw [utf8DecodeReplace_cons, hs]
        simp [hofnat]

/-- Decode-after-encode is the identity on character lists. -/
theorem utf8_decode_encode (l : List Char) :
    utf8DecodeReplace (l.flatMap utf8EncodeChar) = l := by
  induction l with
  | nil => simp [utf8DecodeReplace_nil]
  | cons c t ih =>
    rw [List.flatMap_cons, utf8_decode_encode_char, ih]

/-- C10: `read_tex_file` is total on arbitrary byte content — decoding
uses replacement and never raises, and a failure of the post-read
`seek(0)` is swallowed, so the result is the same whether the seek
raises or not, and always equals the replacement-decode of the bytes.
Moreover, for every string (Lean strings are exactly the sequences of
Unicode scalar values, i.e. the UTF-8-encodable strings), reading a
stream holding its UTF-8 encoding returns exactly that string, with no
parsing, validation, or sanitization. -/
theorem C10_read_tex_file_total_and_roundtrip :
    (∀ (content : List Nat) (b1 b2 : Bool),
        read_tex_file ⟨content, b1⟩ = read_tex_file ⟨content, b2⟩ ∧
          read_tex_file ⟨content, b1⟩ = String.mk (utf8DecodeReplace content)) ∧
      ∀ (s : String) (b : Bool), read_tex_file ⟨utf8Encode s, b⟩ = s := by
  constructor
  · intro content b1 b2
    cases b1 <;> cases b2 <;> exact ⟨rfl, rfl⟩
  · intro s b
    have h : utf8DecodeReplace (s.data.flatMap utf8EncodeChar) = s.data :=
      utf8_decode_encode s.data
    cases b <;>
      · show String.mk (utf8DecodeReplace (utf8Encode s)) = s
        rw [utf8Encode, h]
